import Mathlib

/-!
# Verification of the SkillXchange user-discovery controller

Shallow embedding of the discovery controller implemented by the `BrowseUsers`
page component together with its `Pagination` and `SearchFilters` collaborators.
The controller reconciles two retrieval modes (paginated Browse vs free-text
Search) over a single set of component-state fields.

Modelling conventions:
* React component state (`useState` fields) becomes a `ControllerState` record.
* Each user event (keystroke, debounce-timer fire, page click, filter change,
  fetch completion) is one `Event`; processing an event is the pure function
  `step`, which returns the updated state together with the list of observable
  `Output`s (dispatched fetch requests and error toasts) emitted while
  handling that event.  Events run to completion one at a time, matching the
  single-threaded event loop.
* Inside one event handler, reads of state variables see the values from the
  handler's render closure (the state at the start of the event); `setX` calls
  take effect for subsequent events.  In particular a default parameter such as
  `skill = skillFilter` in `browseUsers` evaluates to the closure value at call
  time, even if a `setSkillFilter` call precedes it in the same handler.
* An `async` fetch is split into its dispatch (an emitted `Output.fetch`) and a
  separate completion event carrying `some response` on success or `none` on
  failure (the `catch` path).
* Users are opaque to the controller; we model a user list as a list of ids.
-/

/-- Response payload of the Browse endpoint (`BrowseUsersResponse`). -/
structure BrowseResponse where
  users : List Nat
  page : Nat
  total_pages : Nat
  total_count : Nat
  has_next : Bool
  has_previous : Bool
deriving DecidableEq

/-- Response payload of the Search endpoint (`SearchUsersResponse`). -/
structure SearchResponse where
  users : List Nat
  total_count : Nat
deriving DecidableEq

/-- A network request dispatched by the controller.  For a Browse request the
two `Option String` fields model the optional `skill_filter` and
`location_filter` members of the `params` object (`none` = member absent). -/
inductive FetchRequest where
  | browse (page : Nat) (page_size : Nat) (skill_filter : Option String)
      (location_filter : Option String)
  | search (q : String) (limit : Nat)
deriving DecidableEq

/-- Observable side effects of processing one event. -/
inductive Output where
  | fetch (f : FetchRequest)
  | toastError (msg : String)
deriving DecidableEq

/-- Ghost tag recording which endpoint produced the last accepted response. -/
inductive ModeTag where
  | browse
  | search
deriving DecidableEq

/-- The `useState` fields of the `BrowseUsers` component that belong to the
discovery controller, plus the ghost field `lastAccepted` recording the mode
of the most recently accepted response (used to state the single-current-
result invariant; it shadows no code and constrains no behaviour). -/
structure ControllerState where
  users : List Nat
  loading : Bool
  searchQuery : String
  searchLoading : Bool
  currentPage : Nat
  totalPages : Nat
  totalCount : Nat
  hasNext : Bool
  hasPrevious : Bool
  skillFilter : String
  locationFilter : String
  lastAccepted : Option ModeTag
deriving DecidableEq

/-- Initial component state (the `useState` initialisers). -/
def initState : ControllerState :=
  { users := []
    loading := false
    searchQuery := ""
    searchLoading := false
    currentPage := 1
    totalPages := 1
    totalCount := 0
    hasNext := false
    hasPrevious := false
    skillFilter := ""
    locationFilter := ""
    lastAccepted := none }

/-- The `params` object built inside `browseUsers`: always `page` and
`page_size: 12`; `skill_filter` / `location_filter` are added only when the
corresponding string is truthy (non-empty). -/
def browseRequest (page : Nat) (skill location : String) : FetchRequest :=
  .browse page 12 (if skill = "" then none else some skill)
    (if location = "" then none else some location)

/-- The synchronous part of `browseUsers(page, skill, location)`:
`setLoading(true)` and dispatch of the Browse request.  The `await`
continuation is modelled by `browseUsersComplete`. -/
def browseUsers (s : ControllerState) (page : Nat) (skill location : String) :
    ControllerState × List Output :=
  ({ s with loading := true }, [.fetch (browseRequest page skill location)])

/-- Continuation of `browseUsers` at response time: on success the handler
stores `users` and every pagination field from the response and the `finally`
clears `loading`; on failure (`catch`) it emits the error toast and the
`finally` clears `loading`, touching nothing else. -/
def browseUsersComplete (s : ControllerState) :
    Option BrowseResponse → ControllerState × List Output
  | some d =>
      ({ s with users := d.users
                currentPage := d.page
                totalPages := d.total_pages
                totalCount := d.total_count
                hasNext := d.has_next
                hasPrevious := d.has_previous
                lastAccepted := some .browse
                loading := false }, [])
  | none => ({ s with loading := false }, [.toastError "Failed to load users"])

/-- JavaScript whitespace for `String.prototype.trim` (space, tab, and line
terminators; the exotic Unicode space characters are irrelevant here). -/
def isJsWhitespace (c : Char) : Bool :=
  c = ' ' || c = '\t' || c = '\n' || c = '\r' || c = '\x0b' || c = '\x0c'

/-- JavaScript `String.prototype.trim`: strip leading and trailing
whitespace. -/
def jsTrim (s : String) : String :=
  ⟨((s.data.dropWhile isJsWhitespace).reverse.dropWhile isJsWhitespace).reverse⟩

/-- The synchronous part of `searchUsers(query)`.  When `query.trim()` is
falsy (empty), it falls back to `browseUsers(1)`, whose omitted
`skill`/`location` arguments default to the closure's current filter values;
otherwise `setSearchLoading(true)` and dispatch of `{ q: query, limit: 20 }`. -/
def searchUsers (s : ControllerState) (q : String) :
    ControllerState × List Output :=
  if jsTrim q = "" then browseUsers s 1 s.skillFilter s.locationFilter
  else ({ s with searchLoading := true }, [.fetch (.search q 20)])

/-- Continuation of `searchUsers` at response time: on success it stores the
users, resets the pagination fields for search results (`page=1`,
`totalPages=1`, `hasNext=hasPrevious=false`), and the `finally` clears
`searchLoading`; on failure it emits the error toast and clears
`searchLoading` only. -/
def searchUsersComplete (s : ControllerState) :
    Option SearchResponse → ControllerState × List Output
  | some d =>
      ({ s with users := d.users
                currentPage := 1
                totalPages := 1
                totalCount := d.total_count
                hasNext := false
                hasPrevious := false
                lastAccepted := some .search
                searchLoading := false }, [])
  | none =>
      ({ s with searchLoading := false }, [.toastError "Failed to search users"])

/-- `handlePageChange(page)`: only when the raw `searchQuery` is falsy (empty)
does it call `browseUsers(page)`; otherwise it does nothing at all. -/
def handlePageChange (s : ControllerState) (page : Nat) :
    ControllerState × List Output :=
  if s.searchQuery = "" then browseUsers s page s.skillFilter s.locationFilter
  else (s, [])

/-- `handleFilterChange(filters)`: stores `filters.skill || ''` and
`filters.location || ''`, resets `currentPage` to 1, and calls
`browseUsers(1, filters.skill, filters.location)`.  An argument of `none`
models an `undefined` member, which triggers the default parameter of
`browseUsers` — i.e. the pre-update closure value of the filter. -/
def handleFilterChange (s : ControllerState) (skill location : Option String) :
    ControllerState × List Output :=
  let s1 := { s with skillFilter := skill.getD ""
                     locationFilter := location.getD ""
                     currentPage := 1 }
  browseUsers s1 1 (skill.getD s.skillFilter) (location.getD s.locationFilter)

/-- `handlePopularSkillClick(skillName)` on the `BrowseUsers` sidebar chips:
sets the skill filter and page 1 and calls
`browseUsers(1, skillName, locationFilter)`. -/
def handlePopularSkillClick (s : ControllerState) (skillName : String) :
    ControllerState × List Output :=
  let s1 := { s with skillFilter := skillName, currentPage := 1 }
  browseUsers s1 1 skillName s.locationFilter

/-- The `onClick` of the results-header "Clear Filters" button:
`setSkillFilter('')`, `setLocationFilter('')`, `setCurrentPage(1)`, then
`browseUsers(1)` — whose omitted arguments default to the render closure's
(pre-update) filter values. -/
def clearFiltersHeaderClick (s : ControllerState) :
    ControllerState × List Output :=
  let s1 := { s with skillFilter := "", locationFilter := "", currentPage := 1 }
  browseUsers s1 1 s.skillFilter s.locationFilter

/-- `SearchFilters.handleClearFilters` (sidebar trash button): calls
`onFilterChange({ skill: '', location: '' })`, i.e. `handleFilterChange` with
both members present and empty. -/
def handleClearFilters (s : ControllerState) : ControllerState × List Output :=
  handleFilterChange s (some "") (some "")

/-- One external event processed by the controller's event loop.
`debounceFire q` is the 300ms timer firing with the query value `q` captured
when it was armed; `browseDone`/`searchDone` are fetch completions
(`none` = the fetch failed). -/
inductive Event where
  | queryInput (q : String)
  | debounceFire (q : String)
  | pageClick (p : Nat)
  | filterChange (skill location : Option String)
  | popularSkillClick (skillName : String)
  | clearFiltersHeader
  | clearFiltersSidebar
  | browseDone (r : Option BrowseResponse)
  | searchDone (r : Option SearchResponse)
deriving DecidableEq

/-- Processing one event: state update plus emitted outputs.  Typing into the
search input only stores the query (the fetch, if any, happens at the later
`debounceFire`). -/
def step (s : ControllerState) : Event → ControllerState × List Output
  | .queryInput q => ({ s with searchQuery := q }, [])
  | .debounceFire q => searchUsers s q
  | .pageClick p => handlePageChange s p
  | .filterChange sk loc => handleFilterChange s sk loc
  | .popularSkillClick n => handlePopularSkillClick s n
  | .clearFiltersHeader => clearFiltersHeaderClick s
  | .clearFiltersSidebar => handleClearFilters s
  | .browseDone r => browseUsersComplete s r
  | .searchDone r => searchUsersComplete s r

/-- State reached after a list of events, starting from `s`. -/
def runEvents (s : ControllerState) (es : List Event) : ControllerState :=
  es.foldl (fun t e => (step t e).1) s

/-- Outputs emitted while processing the last event of a run. -/
def lastOutputs (s : ControllerState) (es : List Event) (e : Event) :
    List Output :=
  (step (runEvents s es) e).2

/-- A state is reachable when some event sequence leads to it from the
initial state. -/
inductive Reachable : ControllerState → Prop where
  | init : Reachable initState
  | next (s : ControllerState) (e : Event) :
      Reachable s → Reachable (step s e).1

/-- The results-header title: `searchQuery ? 'Search Results' : 'Browse Users'`
(raw truthiness, no trim). -/
def resultsHeader (s : ControllerState) : String :=
  if s.searchQuery = "" then "Browse Users" else "Search Results"

/-- The render guard of the Browse pagination block:
`!searchQuery && totalPages > 1`. -/
def paginationDisplayed (s : ControllerState) : Prop :=
  s.searchQuery = "" ∧ 1 < s.totalPages

instance (s : ControllerState) : Decidable (paginationDisplayed s) := by
  unfold paginationDisplayed; infer_instance

/-- An entry of the pagination strip: a page button or the ellipsis marker. -/
inductive PageItem where
  | page (n : Nat)
  | ellipsis
deriving DecidableEq

/-- `generatePageNumbers` from the `Pagination` component.  `maxVisiblePages`
is 5; for larger page counts the strip always starts with page 1 and the three
branches cover the current page being near the start (`<= 3`), near the end
(`>= totalPages - 2`), or in the middle. -/
def generatePageNumbers (currentPage totalPages : Nat) : List PageItem :=
  if totalPages ≤ 5 then
    (List.range' 1 totalPages).map .page
  else
    .page 1 ::
      (if currentPage ≤ 3 then
        ((List.range' 2 3).map .page) ++ [.ellipsis, .page totalPages]
      else if totalPages - 2 ≤ currentPage then
        .ellipsis ::
          ((List.range' (totalPages - 3) 4).filter
            (fun i => decide (1 < i))).map .page
      else
        .ellipsis :: ((List.range' (currentPage - 1) 3).map .page) ++
          [.ellipsis, .page totalPages])

/-- The debounce `useEffect` (deps `[searchQuery]`), modelled over timed query
changes `(t, q)` in event order with non-decreasing times.  Each change clears
the previously armed timer — a no-op if that timer already fired, which is the
case exactly when at least 300ms elapsed before the change — and arms a new
timer for `t + 300` capturing `q`.  The result is the list of `(fireTime,
query)` pairs whose timers actually fire, i.e. the timed `searchUsers`
dispatches caused by the changes. -/
def firedFetches : List (Nat × String) → List (Nat × String)
  | [] => []
  | [(t, q)] => [(t + 300, q)]
  | (t1, q1) :: (t2, q2) :: rest =>
      if t2 < t1 + 300 then firedFetches ((t2, q2) :: rest)
      else (t1 + 300, q1) :: firedFetches ((t2, q2) :: rest)

/-- Single-current-result invariant: the mode tag of the last accepted
response is consistent with the pagination fields — a current Search page has
the fixed pagination values, and pagination depth greater than 1 can only come
from a current Browse page. -/
def StateInv (s : ControllerState) : Prop :=
  (s.lastAccepted = some .search →
    s.currentPage = 1 ∧ s.totalPages = 1 ∧
      s.hasNext = false ∧ s.hasPrevious = false) ∧
  (1 < s.totalPages → s.lastAccepted = some .browse)

/-- A Browse session that applies filters and then navigates to page 2:
filter change (Design / NY), its response, a click to page 2, its response. -/
def preExcursionTrace : List Event :=
  [.filterChange (some "Design") (some "NY"),
   .browseDone (some ⟨[11], 1, 5, 60, true, false⟩),
   .pageClick 2,
   .browseDone (some ⟨[12], 2, 5, 60, true, true⟩)]

/-- The Browse session above followed by a Search excursion (type `ux`, the
debounce fires, the search response is accepted) and the query being cleared;
the next event is the debounce fire for the cleared query. -/
def excursionTrace : List Event :=
  preExcursionTrace ++
    [.queryInput "ux", .debounceFire "ux", .searchDone (some ⟨[99], 1⟩),
     .queryInput ""]

/-! ## Helper lemmas -/

/-- Every request built by `browseRequest` has page size 12 and never carries
an explicitly empty filter member. -/
lemma browseRequest_shape (page : Nat) (sk loc : String) :
    ∀ p2 ps osk oloc, browseRequest page sk loc = .browse p2 ps osk oloc →
      ps = 12 ∧ osk ≠ some "" ∧ oloc ≠ some "" := by
  intro p2 ps osk oloc h
  unfold browseRequest at h
  injection h with h1 h2 h3 h4
  subst h2; subst h3; subst h4
  refine ⟨rfl, ?_, ?_⟩ <;> split <;> simp_all

/-- `browseRequest` is never a Search request. -/
lemma browseRequest_ne_search (page : Nat) (sk loc q : String) (lim : Nat) :
    browseRequest page sk loc ≠ .search q lim := by
  unfold browseRequest; intro h; cases h

/-- Within a 300ms window of chronologically ordered query changes, only the
final change's timer survives: it fires 300ms after that change, with that
change's query value. -/
lemma firedFetches_within_window (c : Nat × String) (cs : List (Nat × String))
    (hmono : List.Chain' (fun a b => a.1 ≤ b.1) (c :: cs))
    (hwin : ∀ x ∈ c :: cs, x.1 < c.1 + 300) :
    firedFetches (c :: cs) =
      [(((c :: cs).getLast (List.cons_ne_nil c cs)).1 + 300,
        ((c :: cs).getLast (List.cons_ne_nil c cs)).2)] := by
  induction cs generalizing c with
  | nil => rfl
  | cons c2 rest ih =>
      obtain ⟨hle, hchain⟩ := List.chain'_cons.mp hmono
      have h2 : c2.1 < c.1 + 300 := hwin c2 (by simp)
      have hwin2 : ∀ x ∈ c2 :: rest, x.1 < c2.1 + 300 := by
        intro x hx
        have := hwin x (List.mem_cons_of_mem c hx)
        omega
      have hrec := ih c2 hchain hwin2
      have hlast : (c :: c2 :: rest).getLast (List.cons_ne_nil c (c2 :: rest))
          = (c2 :: rest).getLast (List.cons_ne_nil c2 rest) :=
        List.getLast_cons (List.cons_ne_nil c2 rest)
      obtain ⟨t1, q1⟩ := c
      obtain ⟨t2, q2⟩ := c2
      simp only [firedFetches]
      rw [if_pos h2, hrec, hlast]

/-- The invariant holds initially. -/
lemma inv_initState : StateInv initState := by
  constructor <;> intro h <;> simp [initState] at h ⊢

/-- The invariant is preserved by every event. -/
lemma inv_step (s : ControllerState) (e : Event) (h : StateInv s) :
    StateInv (step s e).1 := by
  obtain ⟨h1, h2⟩ := h
  cases e with
  | queryInput q => exact ⟨h1, h2⟩
  | debounceFire q =>
      simp only [step, searchUsers, browseUsers]
      split
      · exact ⟨h1, h2⟩
      · exact ⟨h1, h2⟩
  | pageClick p =>
      simp only [step, handlePageChange, browseUsers]
      split
      · exact ⟨h1, h2⟩
      · exact ⟨h1, h2⟩
  | filterChange sk loc =>
      exact ⟨fun hs => ⟨rfl, (h1 hs).2.1, (h1 hs).2.2.1, (h1 hs).2.2.2⟩, h2⟩
  | popularSkillClick n =>
      exact ⟨fun hs => ⟨rfl, (h1 hs).2.1, (h1 hs).2.2.1, (h1 hs).2.2.2⟩, h2⟩
  | clearFiltersHeader =>
      exact ⟨fun hs => ⟨rfl, (h1 hs).2.1, (h1 hs).2.2.1, (h1 hs).2.2.2⟩, h2⟩
  | clearFiltersSidebar =>
      exact ⟨fun hs => ⟨rfl, (h1 hs).2.1, (h1 hs).2.2.1, (h1 hs).2.2.2⟩, h2⟩
  | browseDone r =>
      cases r with
      | none => exact ⟨h1, h2⟩
      | some d =>
          refine ⟨fun hs => ?_, fun _ => rfl⟩
          exact absurd (Option.some.inj hs) (by intro hh; cases hh)
  | searchDone r =>
      cases r with
      | none => exact ⟨h1, h2⟩
      | some d =>
          exact ⟨fun _ => ⟨rfl, rfl, rfl, rfl⟩,
            fun hh => absurd hh (by exact Nat.lt_irrefl 1)⟩

/-- Every reachable controller state satisfies the invariant. -/
lemma reachable_inv (s : ControllerState) (h : Reachable s) : StateInv s := by
  induction h with
  | init => exact inv_initState
  | next s e _ ih => exact inv_step s e ih

/-! ## Claim theorems -/

/-- Claim C1 (counterexample): two Browse fetches are issued for the same
mode, A (page 2) before B (page 3); B's response is accepted (the user list
becomes `[3]`); then A's late completion arrives and overwrites the view
model set by B (user list becomes `[2]`, page becomes 2) — the stale response
is not discarded. -/
theorem stale_response_overwrites_counterexample :
    (step initState (.pageClick 2)).2 = [.fetch (.browse 2 12 none none)] ∧
    (step (runEvents initState [.pageClick 2]) (.pageClick 3)).2
      = [.fetch (.browse 3 12 none none)] ∧
    (runEvents initState [.pageClick 2, .pageClick 3,
      .browseDone (some ⟨[3], 3, 5, 60, true, true⟩)]).users = [3] ∧
    (runEvents initState [.pageClick 2, .pageClick 3,
      .browseDone (some ⟨[3], 3, 5, 60, true, true⟩),
      .browseDone (some ⟨[2], 2, 5, 60, true, true⟩)]).users = [2] ∧
    (runEvents initState [.pageClick 2, .pageClick 3,
      .browseDone (some ⟨[3], 3, 5, 60, true, true⟩),
      .browseDone (some ⟨[2], 2, 5, 60, true, true⟩)]).currentPage = 2 := by
  decide

/-- Claim C1 (amended): the controller has no token discipline — every
completed response is applied unconditionally, so acceptance order is
completion order: whatever browse or search response completes last determines
the user list and pagination fields, regardless of issue order. -/
theorem completion_always_applied (s : ControllerState)
    (rb : BrowseResponse) (rs : SearchResponse) :
    (step s (.browseDone (some rb))).1.users = rb.users ∧
    (step s (.browseDone (some rb))).1.currentPage = rb.page ∧
    (step s (.browseDone (some rb))).1.totalPages = rb.total_pages ∧
    (step s (.searchDone (some rs))).1.users = rs.users ∧
    (step s (.searchDone (some rs))).1.totalPages = 1 :=
  ⟨rfl, rfl, rfl, rfl, rfl⟩

/-- Claim C3 (counterexample): for the whitespace-only query `" "`, the
debounce fire dispatches a Browse fetch (the trimmed query is empty), yet the
results header shows `"Search Results"` and the Browse pagination block is
suppressed even with `totalPages > 1` — the externally visible mode is Search,
not Browse, so one query does not yield Browse mode throughout. -/
theorem whitespace_query_mode_mismatch :
    (step { initState with searchQuery := " " } (.debounceFire " ")).2
      = [.fetch (.browse 1 12 none none)] ∧
    resultsHeader { initState with searchQuery := " " } = "Search Results" ∧
    ¬ paginationDisplayed
        { initState with searchQuery := " ", totalPages := 3 } := by
  refine ⟨by decide, by decide, ?_⟩
  intro h
  exact absurd h.1 (by decide)

/-- Claim C3 (amended): the dispatched fetch is a Search fetch iff the trimmed
query is non-empty, but the externally visible mode (results header, Browse
pagination guard, page-click guard) tests the raw query string: the header
reads "Search Results" iff the raw query is non-empty, and Browse pagination
can be displayed only when the raw query is empty. -/
theorem mode_selection_trim_vs_raw (s : ControllerState) (q : String) :
    ((step s (.debounceFire q)).2 = [.fetch (.search q 20)] ↔ jsTrim q ≠ "") ∧
    (resultsHeader s = "Search Results" ↔ s.searchQuery ≠ "") ∧
    (paginationDisplayed s → s.searchQuery = "") := by
  refine ⟨?_, ?_, fun h => h.1⟩
  · by_cases h : jsTrim q = ""
    · have hs : (step s (.debounceFire q)).2
          = [.fetch (browseRequest 1 s.skillFilter s.locationFilter)] := by
        simp [step, searchUsers, h, browseUsers]
      rw [hs]
      constructor
      · intro hc
        have h1 := (List.cons.inj hc).1
        have h2 := Output.fetch.inj h1
        exact absurd h2
          (browseRequest_ne_search 1 s.skillFilter s.locationFilter q 20)
      · intro hc; exact absurd h hc
    · have hs : (step s (.debounceFire q)).2 = [.fetch (.search q 20)] := by
        simp [step, searchUsers, h]
      rw [hs]
      exact ⟨fun _ => h, fun _ => rfl⟩
  · unfold resultsHeader
    by_cases h : s.searchQuery = ""
    · rw [if_pos h]
      constructor
      · intro hc; exact absurd hc (by decide)
      · intro hc; exact absurd h hc
    · rw [if_neg h]
      exact ⟨fun _ => h, fun _ => rfl⟩

/-- Claim C6 (code slip): clearing the filters through the results-header
"Clear Filters" button while `skillFilter = "Design"` updates the state to
empty filters, but the fetch it dispatches is built from the stale closure
values and still carries `skill_filter = "Design"`; the sidebar clear path
(`SearchFilters.handleClearFilters`) passes empty strings explicitly and
correctly dispatches an unfiltered page-1 Browse fetch. -/
theorem clear_filters_header_stale_fetch :
    (step { initState with skillFilter := "Design" }
      .clearFiltersHeader).1.skillFilter = "" ∧
    (step { initState with skillFilter := "Design" }
      .clearFiltersHeader).1.currentPage = 1 ∧
    (step { initState with skillFilter := "Design" } .clearFiltersHeader).2
      = [.fetch (.browse 1 12 (some "Design") none)] ∧
    (step { initState with skillFilter := "Design" } .clearFiltersSidebar).2
      = [.fetch (.browse 1 12 none none)] := by
  decide

/-- Claim C7: a failed fetch (Browse or Search) leaves the user list and every
pagination field untouched, emits the error toast, turns off (only) the
relevant loading flag, dispatches no retry, and the controller still accepts
and serves new intents afterwards. -/
theorem fetch_failure_preserves_results (s : ControllerState)
    (skill location : Option String) :
    step s (.browseDone none)
      = ({ s with loading := false }, [.toastError "Failed to load users"]) ∧
    step s (.searchDone none)
      = ({ s with searchLoading := false },
         [.toastError "Failed to search users"]) ∧
    (∀ f, Output.fetch f ∉ (step s (.browseDone none)).2) ∧
    (∀ f, Output.fetch f ∉ (step s (.searchDone none)).2) ∧
    (step (step s (.browseDone none)).1 (.filterChange skill location)).2
      = [.fetch (browseRequest 1 (skill.getD s.skillFilter)
          (location.getD s.locationFilter))] := by
  refine ⟨rfl, rfl, ?_, ?_, rfl⟩
  · intro f hf
    simp [step, browseUsersComplete] at hf
  · intro f hf
    simp [step, searchUsersComplete] at hf

/-- Claim C10: while the raw query string is non-empty, a page-change intent
is a complete no-op — the state (user list, pagination fields, filters, both
loading flags) is returned unchanged and no output is emitted. -/
theorem pageChange_noop_during_search (s : ControllerState) (p : Nat)
    (h : s.searchQuery ≠ "") : step s (.pageClick p) = (s, []) := by
  simp [step, handlePageChange, h]

/-- Witness for C10 at a concrete state with query `"x"` and a page-2 click. -/
theorem pageChange_noop_during_search_witness :
    ({ initState with searchQuery := "x" } : ControllerState).searchQuery ≠ ""
      ∧ step { initState with searchQuery := "x" } (.pageClick 2)
          = ({ initState with searchQuery := "x" }, []) :=
  ⟨by decide, pageChange_noop_during_search { initState with searchQuery := "x" }
    2 (by decide)⟩

/-- Claim C2: query changes that all happen inside one 300ms window produce
exactly one fetch dispatch, 300ms after the last change and with its query
value, while a filter change and a Browse-mode page click dispatch their
Browse fetch immediately in the handling of the very event (typing itself
dispatches nothing). -/
theorem debounce_and_immediacy
    (c : Nat × String) (cs : List (Nat × String))
    (s : ControllerState) (q : String) (skill location : Option String)
    (p : Nat)
    (hmono : List.Chain' (fun a b => a.1 ≤ b.1) (c :: cs))
    (hwin : ∀ x ∈ c :: cs, x.1 < c.1 + 300)
    (hq : s.searchQuery = "") :
    firedFetches (c :: cs)
      = [(((c :: cs).getLast (List.cons_ne_nil c cs)).1 + 300,
          ((c :: cs).getLast (List.cons_ne_nil c cs)).2)] ∧
    (step s (.queryInput q)).2 = [] ∧
    (step s (.filterChange skill location)).2
      = [.fetch (browseRequest 1 (skill.getD s.skillFilter)
          (location.getD s.locationFilter))] ∧
    (step s (.pageClick p)).2
      = [.fetch (browseRequest p s.skillFilter s.locationFilter)] := by
  refine ⟨firedFetches_within_window c cs hmono hwin, rfl, rfl, ?_⟩
  simp [step, handlePageChange, hq, browseUsers]

/-- Witness for C2: three query changes at 0ms, 100ms and 200ms yield exactly
the single fetch at 500ms with the final value, and the immediate dispatches
at a concrete Browse state. -/
theorem debounce_and_immediacy_witness :
    List.Chain' (fun (a b : Nat × String) => a.1 ≤ b.1)
      [(0, "a"), (100, "ab"), (200, "abc")] ∧
    (∀ x ∈ [((0 : Nat), "a"), (100, "ab"), (200, "abc")], x.1 < 0 + 300) ∧
    initState.searchQuery = "" ∧
    firedFetches [(0, "a"), (100, "ab"), (200, "abc")] = [(500, "abc")] ∧
    (step initState (.queryInput "a")).2 = [] ∧
    (step initState (.filterChange (some "Design") none)).2
      = [.fetch (.browse 1 12 (some "Design") none)] ∧
    (step initState (.pageClick 2)).2 = [.fetch (.browse 2 12 none none)] := by
  have hchain : List.Chain' (fun (a b : Nat × String) => a.1 ≤ b.1)
      [(0, "a"), (100, "ab"), (200, "abc")] := by
    norm_num [List.chain'_cons]
  have h := debounce_and_immediacy (0, "a") [(100, "ab"), (200, "abc")]
    initState "a" (some "Design") none 2 hchain (by decide) rfl
  exact ⟨hchain, by decide, rfl, h.1, h.2.1, h.2.2.1, h.2.2.2⟩

/-- Claim C4 (counterexample): after browsing with filters Design/NY to page 2
and taking a Search excursion, clearing the query makes the debounce fire
dispatch a Browse fetch for page 1 with the pre-excursion filters — the
pre-excursion page 2 is not restored (the only dispatched fetch requests
page 1). -/
theorem clear_query_page_counterexample :
    (runEvents initState preExcursionTrace).currentPage = 2 ∧
    (runEvents initState preExcursionTrace).skillFilter = "Design" ∧
    (runEvents initState preExcursionTrace).locationFilter = "NY" ∧
    (runEvents initState excursionTrace).searchQuery = "" ∧
    lastOutputs initState excursionTrace (.debounceFire "")
      = [.fetch (.browse 1 12 (some "Design") (some "NY"))] := by
  decide

/-- Claim C4 (amended): clearing the query is not a no-op — the debounce fire
on the cleared query dispatches exactly one Browse fetch, for page 1 with the
state's current filters; and no step of the Search excursion (typing a
non-blank query, its debounce fire, a search completion) ever changes the
filter fields, so those filters are exactly the pre-excursion ones. -/
theorem clear_query_browse_page1_with_filters (s : ControllerState)
    (q qne : String) (hq : jsTrim q = "") (hne : jsTrim qne ≠ "") :
    (step s (.debounceFire q)).2
      = [.fetch (browseRequest 1 s.skillFilter s.locationFilter)] ∧
    (step s (.queryInput qne)).1.skillFilter = s.skillFilter ∧
    (step s (.queryInput qne)).1.locationFilter = s.locationFilter ∧
    (step s (.debounceFire qne)).1.skillFilter = s.skillFilter ∧
    (step s (.debounceFire qne)).1.locationFilter = s.locationFilter ∧
    (∀ r, (step s (.searchDone r)).1.skillFilter = s.skillFilter ∧
          (step s (.searchDone r)).1.locationFilter = s.locationFilter) := by
  refine ⟨by simp [step, searchUsers, hq, browseUsers], rfl, rfl, ?_, ?_, ?_⟩
  · simp [step, searchUsers, hne, browseUsers]
  · simp [step, searchUsers, hne, browseUsers]
  · intro r; cases r <;> exact ⟨rfl, rfl⟩

/-- Witness for the amended C4 at a Browse state on page 2 with filters
Design/NY, clearing to the empty query after the excursion query `"x"`. -/
theorem clear_query_browse_page1_witness :
    jsTrim "" = "" ∧ jsTrim "x" ≠ "" ∧
    (step { initState with skillFilter := "Design", locationFilter := "NY", currentPage := 2 } (.debounceFire "")).2
      = [.fetch (.browse 1 12 (some "Design") (some "NY"))] := by
  have h := clear_query_browse_page1_with_filters
    { initState with skillFilter := "Design", locationFilter := "NY", currentPage := 2 }
    "" "x" (by decide) (by decide)
  exact ⟨by decide, by decide, h.1⟩

/-- Any fetch equal to a `browseRequest` satisfies the C9 conformance shape
and is never a Search request. -/
lemma conforms_of_browseRequest (page : Nat) (sk loc : String)
    (e : Event) (f : FetchRequest) (hf : f = browseRequest page sk loc) :
    (∀ p ps osk oloc, f = .browse p ps osk oloc →
      ps = 12 ∧ osk ≠ some "" ∧ oloc ≠ some "") ∧
    (∀ q lim, f = .search q lim → lim = 20 ∧ e = .debounceFire q) := by
  subst hf
  exact ⟨browseRequest_shape page sk loc,
    fun q lim heq => absurd heq (browseRequest_ne_search page sk loc q lim)⟩

/-- Claim C9: every fetch the controller dispatches, at any state and on any
event, conforms to the fetch-selection contract: a Browse fetch has page size
exactly 12 and never carries an empty filter member, and a Search fetch has
limit exactly 20 and carries the full query string the debounce fired with. -/
theorem dispatched_fetch_conforms (s : ControllerState) (e : Event)
    (f : FetchRequest) (hf : Output.fetch f ∈ (step s e).2) :
    (∀ p ps osk oloc, f = .browse p ps osk oloc →
      ps = 12 ∧ osk ≠ some "" ∧ oloc ≠ some "") ∧
    (∀ q lim, f = .search q lim → lim = 20 ∧ e = .debounceFire q) := by
  cases e with
  | queryInput q => simp [step] at hf
  | debounceFire q =>
      simp only [step, searchUsers, browseUsers] at hf
      split at hf
      · simp only [List.mem_singleton] at hf
        exact conforms_of_browseRequest 1 s.skillFilter s.locationFilter
          (.debounceFire q) f (Output.fetch.inj hf)
      · simp only [List.mem_singleton] at hf
        have hf2 := Output.fetch.inj hf
        subst hf2
        refine ⟨fun p ps osk oloc heq => ?_, fun q2 lim heq => ?_⟩
        · cases heq
        · injection heq with hq2 hlim
          subst hq2; subst hlim
          exact ⟨rfl, rfl⟩
  | pageClick p =>
      simp only [step, handlePageChange, browseUsers] at hf
      split at hf
      · simp only [List.mem_singleton] at hf
        exact conforms_of_browseRequest p s.skillFilter s.locationFilter
          (.pageClick p) f (Output.fetch.inj hf)
      · simp at hf
  | filterChange sk loc =>
      simp only [step, handleFilterChange, browseUsers,
        List.mem_singleton] at hf
      exact conforms_of_browseRequest 1 (sk.getD s.skillFilter)
        (loc.getD s.locationFilter) (.filterChange sk loc) f
        (Output.fetch.inj hf)
  | popularSkillClick n =>
      simp only [step, handlePopularSkillClick, browseUsers,
        List.mem_singleton] at hf
      exact conforms_of_browseRequest 1 n s.locationFilter
        (.popularSkillClick n) f (Output.fetch.inj hf)
  | clearFiltersHeader =>
      simp only [step, clearFiltersHeaderClick, browseUsers,
        List.mem_singleton] at hf
      exact conforms_of_browseRequest 1 s.skillFilter s.locationFilter
        .clearFiltersHeader f (Output.fetch.inj hf)
  | clearFiltersSidebar =>
      simp only [step, handleClearFilters, handleFilterChange, browseUsers,
        List.mem_singleton] at hf
      exact conforms_of_browseRequest 1 ((some "").getD s.skillFilter)
        ((some "").getD s.locationFilter) .clearFiltersSidebar f
        (Output.fetch.inj hf)
  | browseDone r =>
      cases r <;> simp [step, browseUsersComplete] at hf
  | searchDone r =>
      cases r <;> simp [step, searchUsersComplete] at hf

/-- Witness for C9: the page-2 click at the initial state dispatches the
Browse fetch with page size 12 and no filter members. -/
theorem dispatched_fetch_conforms_witness :
    Output.fetch (.browse 2 12 none none) ∈ (step initState (.pageClick 2)).2 ∧
    ((∀ p ps osk oloc,
        (FetchRequest.browse 2 12 none none) = .browse p ps osk oloc →
        ps = 12 ∧ osk ≠ some "" ∧ oloc ≠ some "") ∧
     (∀ q lim, (FetchRequest.browse 2 12 none none) = .search q lim →
        lim = 20 ∧ Event.pageClick 2 = .debounceFire q)) :=
  ⟨by decide,
   dispatched_fetch_conforms initState (.pageClick 2)
     (.browse 2 12 none none) (by decide)⟩

/-- Claim C5: the pagination window shows `[1,2,3,4,…,10]`, `[1,…,4,5,6,…,10]`
and `[1,…,7,8,9,10]` for current pages 1, 5 and 10 of 10, all of `[1,2,3]`
with no ellipsis for 3 pages; in general with at most 5 pages exactly the
pages 1..totalPages appear and no ellipsis, and with more than 5 pages the
strip always contains page 1 and the last page. -/
theorem generatePageNumbers_window (cp tp n cp2 tp2 cp3 : Nat)
    (h1 : tp ≤ 5) (h2 : 5 < tp2) :
    generatePageNumbers 1 10
      = [.page 1, .page 2, .page 3, .page 4, .ellipsis, .page 10] ∧
    generatePageNumbers 5 10
      = [.page 1, .ellipsis, .page 4, .page 5, .page 6, .ellipsis,
         .page 10] ∧
    generatePageNumbers 10 10
      = [.page 1, .ellipsis, .page 7, .page 8, .page 9, .page 10] ∧
    generatePageNumbers cp3 3 = [.page 1, .page 2, .page 3] ∧
    ((PageItem.page n ∈ generatePageNumbers cp tp ↔ 1 ≤ n ∧ n ≤ tp) ∧
      PageItem.ellipsis ∉ generatePageNumbers cp tp) ∧
    (PageItem.page 1 ∈ generatePageNumbers cp2 tp2 ∧
      PageItem.page tp2 ∈ generatePageNumbers cp2 tp2) := by
  refine ⟨by decide, by decide, by decide, rfl, ?_, ?_⟩
  · unfold generatePageNumbers
    rw [if_pos h1]
    constructor
    · simp only [List.mem_map, List.mem_range'_1]
      constructor
      · rintro ⟨a, ⟨ha1, ha2⟩, hax⟩
        injection hax with hax
        omega
      · intro hn
        exact ⟨n, by omega, rfl⟩
    · simp only [List.mem_map]
      rintro ⟨a, _, hax⟩
      cases hax
  · unfold generatePageNumbers
    rw [if_neg (by omega)]
    by_cases hc : cp2 ≤ 3
    · rw [if_pos hc]
      exact ⟨by simp, by simp⟩
    · rw [if_neg hc]
      by_cases hd : tp2 - 2 ≤ cp2
      · rw [if_pos hd]
        refine ⟨by simp, ?_⟩
        refine List.mem_cons_of_mem _ (List.mem_cons_of_mem _ ?_)
        refine List.mem_map.mpr ⟨tp2, List.mem_filter.mpr ⟨?_, ?_⟩, rfl⟩
        · rw [List.mem_range'_1]
          omega
        · simp only [decide_eq_true_eq]
          omega
      · rw [if_neg hd]
        exact ⟨by simp, by simp⟩

/-- Witness for C5 at `(currentPage, totalPages)` pairs `(2, 3)` for the
small-count clause and `(1, 10)` for the large-count clause. -/
theorem generatePageNumbers_window_witness :
    3 ≤ 5 ∧ 5 < 10 ∧
    (PageItem.page 2 ∈ generatePageNumbers 2 3 ↔ 1 ≤ 2 ∧ 2 ≤ 3) ∧
    PageItem.ellipsis ∉ generatePageNumbers 2 3 ∧
    PageItem.page 1 ∈ generatePageNumbers 1 10 ∧
    PageItem.page 10 ∈ generatePageNumbers 1 10 := by
  have h := generatePageNumbers_window 2 3 2 1 10 1 (by decide) (by decide)
  exact ⟨by decide, by decide, h.2.2.2.2.1.1, h.2.2.2.2.1.2,
    h.2.2.2.2.2.1, h.2.2.2.2.2.2⟩

/-- Claim C8: in every reachable state the last accepted response has a
consistent mode tag — a current Search page carries the fixed pagination
values (page 1, one total page, no next/previous), the Browse pagination
block can only be displayed over a current Browse page — and accepting a
response of either mode replaces the user list and every pagination field
together in one step, a Search acceptance fixing page=1, totalPages=1,
hasNext=hasPrevious=false. -/
theorem single_current_result_invariant (s : ControllerState)
    (d : SearchResponse) (b : BrowseResponse) (h : Reachable s) :
    (s.lastAccepted = some ModeTag.search →
      s.currentPage = 1 ∧ s.totalPages = 1 ∧
        s.hasNext = false ∧ s.hasPrevious = false) ∧
    (paginationDisplayed s → s.lastAccepted = some ModeTag.browse) ∧
    ((step s (.searchDone (some d))).1.users = d.users ∧
     (step s (.searchDone (some d))).1.currentPage = 1 ∧
     (step s (.searchDone (some d))).1.totalPages = 1 ∧
     (step s (.searchDone (some d))).1.hasNext = false ∧
     (step s (.searchDone (some d))).1.hasPrevious = false ∧
     (step s (.searchDone (some d))).1.lastAccepted = some ModeTag.search) ∧
    ((step s (.browseDone (some b))).1.users = b.users ∧
     (step s (.browseDone (some b))).1.currentPage = b.page ∧
     (step s (.browseDone (some b))).1.totalPages = b.total_pages ∧
     (step s (.browseDone (some b))).1.totalCount = b.total_count ∧
     (step s (.browseDone (some b))).1.hasNext = b.has_next ∧
     (step s (.browseDone (some b))).1.hasPrevious = b.has_previous ∧
     (step s (.browseDone (some b))).1.lastAccepted = some ModeTag.browse) := by
  obtain ⟨h1, h2⟩ := reachable_inv s h
  exact ⟨h1, fun hp => h2 hp.2, ⟨rfl, rfl, rfl, rfl, rfl, rfl⟩,
    ⟨rfl, rfl, rfl, rfl, rfl, rfl, rfl⟩⟩

/-- Witness for C8 at the (reachable) initial state with concrete Search and
Browse responses. -/
theorem single_current_result_invariant_witness :
    Reachable initState ∧
    (initState.lastAccepted = some ModeTag.search →
      initState.currentPage = 1 ∧ initState.totalPages = 1 ∧
        initState.hasNext = false ∧ initState.hasPrevious = false) ∧
    (paginationDisplayed initState →
      initState.lastAccepted = some ModeTag.browse) ∧
    (step initState (.searchDone (some ⟨[7], 1⟩))).1.users = [7] ∧
    (step initState (.searchDone (some ⟨[7], 1⟩))).1.totalPages = 1 ∧
    (step initState
      (.browseDone (some ⟨[8], 2, 5, 60, true, true⟩))).1.users = [8] ∧
    (step initState
        (.browseDone (some ⟨[8], 2, 5, 60, true, true⟩))).1.lastAccepted
      = some ModeTag.browse := by
  have h := single_current_result_invariant initState ⟨[7], 1⟩
    ⟨[8], 2, 5, 60, true, true⟩ Reachable.init
  exact ⟨Reachable.init, h.1, h.2.1, h.2.2.1.1, h.2.2.1.2.2.1,
    h.2.2.2.1, h.2.2.2.2.2.2.2.2.2⟩
